import Mathlib

/-!
Verification of `turbopack-ecmascript/src/references/worker.rs`: the
`WorkerAssetReference` descriptor, its resolution call, stringification,
chunking classification, loader-kind selection, and the rewrite visitor
installed by `code_generation`.

The SWC syntax tree is embedded shallowly: only the constructors the
visitor distinguishes are modelled structurally (`Expr::New` with its
optional argument list of possibly-spread sub-expressions, and the pieces
of the quoted throw template: call, paren, arrow, throw statement,
identifier, string literal). External services (the resolver `url_resolve`
and the pattern-mapping `create_import`) are modelled as the records of
arguments they receive, respectively as an abstract builder function
parameter, exactly as the Rust code treats them.
-/

/-- Shallow embedding of the SWC expression forms the visitor in
`code_generation` distinguishes. `newE` carries the callee and an optional
argument list, each argument flagged by whether it is a spread
(`ExprOrSpread.spread` in SWC is an `Option<Span>`; only its presence
matters to the code, embedded as `Bool`). The remaining constructors are
exactly what the quoted fallback template
`(() => \x7b throw new Error($message); \x7d)()` is built from, plus
`ident`, `strLit` and `numLit` so that arbitrary non-new expressions can
appear at the site. -/
inductive Expr where
  | newE (callee : Expr) (args : Option (List (Bool × Expr))) : Expr
  | callE (callee : Expr) (args : List (Bool × Expr)) : Expr
  | paren (e : Expr) : Expr
  | arrow (params : List String) (body : List (Bool × Expr)) : Expr
  | ident (sym : String) : Expr
  | strLit (value : String) : Expr
  | numLit (value : Int) : Expr
deriving Repr

/-- In the arrow body, a statement is embedded as a pair: `true` marks a
throw statement carrying the thrown expression, `false` an expression
statement. Only throw statements occur in the quoted template. -/
def throwStmt (e : Expr) : Bool × Expr := (true, e)

/-- The fallback replacement produced by
`quote_expr!("(() => \x7b throw new Error($message); \x7d)()", message: Expr = Expr::Lit(Lit::Str(message.into())))`:
a self-invoking parenthesised zero-parameter arrow function whose single
body statement throws `new Error(<message>)` where the message is a string
literal. -/
def throwIife (message : String) : Expr :=
  Expr.callE
    (Expr.paren
      (Expr.arrow []
        [throwStmt
          (Expr.newE (Expr.ident "Error")
            (some [(false, Expr.strLit message)]))]))
    []

/-- Whether an expression is a `new`-construction (`Expr::New` in SWC). -/
def Expr.isNew : Expr → Bool
  | Expr.newE _ _ => true
  | _ => false

/-- The body of the `create_visitor!(path, visit_mut_expr(...))` closure in
`code_generation`, as a pure function on the old expression. `createImport`
stands for `pm.create_import`, the builder returned by the external
pattern-mapping service; `importExternals` is the captured
`self.import_externals`. The Rust code takes the old expression, and if it
is `Expr::New` with a present argument list inspects only
`args.into_iter().next()`: a first argument without spread goes to
`pm.create_import(*key_expr, import_externals)` and returns early; a first
argument with spread, an empty list, a missing list, or a non-new node fall
through to the quoted throw template with the matching message. -/
def rewriteWorkerExpr (createImport : Expr → Bool → Expr)
    (importExternals : Bool) (oldExpr : Expr) : Expr :=
  match oldExpr with
  | Expr.newE _ args =>
    match args with
    | some argList =>
      match argList.head? with
      | some (false, keyExpr) => createImport keyExpr importExternals
      | some (true, _) =>
          throwIife "spread operator is illegal in new Worker() expressions."
      | none =>
          throwIife "new Worker() expressions require at least 1 argument"
    | none =>
        throwIife "new Worker() expressions require at least 1 argument"
  | _ => throwIife "visitor must be executed on a CallExpr"

/-- The `WorkerAssetReference` descriptor. The `Vc` handles (`origin`,
`request`, `path`, `issue_source`) are content-addressed identities of
external values; they are embedded as opaque natural-number identifiers,
since this component only forwards them. -/
structure WorkerAssetReference where
  origin : Nat
  request : Nat
  path : Nat
  issue_source : Nat
  in_try : Bool
  import_externals : Bool
deriving DecidableEq, Repr

/-- The rewrite installed by `code_generation` for a descriptor: the
visitor closure captures `self.import_externals` and the builder `pm`. -/
def code_generation_rewrite (createImport : Expr → Bool → Expr)
    (r : WorkerAssetReference) (oldExpr : Expr) : Expr :=
  rewriteWorkerExpr createImport r.import_externals oldExpr

/-- Severity of a reported issue (`IssueSeverity` in turbopack-core). -/
inductive IssueSeverity where
  | Error : IssueSeverity
  | Warning : IssueSeverity
deriving DecidableEq, Repr

/-- Modelled from the spec: `try_to_severity` lives in
`turbopack_resolve::ecmascript`, which is not part of this repository
snapshot; per the spec, the severity is derived from the suppressed flag —
suppressed (inside try) gives warning level, otherwise error level. -/
def try_to_severity (in_try : Bool) : IssueSeverity :=
  if in_try then IssueSeverity.Warning else IssueSeverity.Error

/-- Sub-kinds of URL reference resolution (`UrlReferenceSubType`). -/
inductive UrlReferenceSubType where
  | EcmaScriptNewUrl : UrlReferenceSubType
  | CssUrl : UrlReferenceSubType
  | Undefined : UrlReferenceSubType
deriving DecidableEq, Repr

/-- Sub-kinds of ordinary ECMAScript module import resolution
(`EcmaScriptModulesReferenceSubType`). -/
inductive EcmaScriptModulesReferenceSubType where
  | Import : EcmaScriptModulesReferenceSubType
  | DynamicImport : EcmaScriptModulesReferenceSubType
  | Undefined : EcmaScriptModulesReferenceSubType
deriving DecidableEq, Repr

/-- The reference-kind tag passed to the resolver (`ReferenceType`),
restricted to the families this file distinguishes: URL-like references
and ordinary ECMAScript module imports. -/
inductive ReferenceType where
  | Url (sub : UrlReferenceSubType) : ReferenceType
  | EcmaScriptModules (sub : EcmaScriptModulesReferenceSubType) : ReferenceType
deriving DecidableEq, Repr

/-- The record of arguments with which `url_resolve` — the external
resolver — is invoked. The resolve result is the external resolver applied
to exactly these arguments, so two invocations with equal records denote
the same result. -/
structure UrlResolveCall where
  origin : Nat
  request : Nat
  refType : ReferenceType
  issueSource : Option Nat
  severity : IssueSeverity
deriving DecidableEq, Repr

/-- `worker_resolve_reference_inline`: calls `url_resolve` with the
descriptor origin and request, the fixed tag
`ReferenceType::Url(UrlReferenceSubType::EcmaScriptNewUrl)`,
`Some(issue_source)`, and `try_to_severity(in_try)`. -/
def worker_resolve_reference_inline (r : WorkerAssetReference) : UrlResolveCall :=
  { origin := r.origin
    request := r.request
    refType := ReferenceType.Url UrlReferenceSubType.EcmaScriptNewUrl
    issueSource := some r.issue_source
    severity := try_to_severity r.in_try }

/-- `ModuleReference::resolve_reference` for `WorkerAssetReference`:
delegates to `worker_resolve_reference_inline`. -/
def resolve_reference (r : WorkerAssetReference) : UrlResolveCall :=
  worker_resolve_reference_inline r

/-- `ValueToString::to_string` for `WorkerAssetReference`:
`format!("new Worker \x7b\x7d", self.request.to_string().await?)`. The
textual rendering of the request handle is external, passed as
`requestToString`. -/
def worker_to_string (requestToString : Nat → String)
    (r : WorkerAssetReference) : String :=
  "new Worker " ++ requestToString r.request

/-- The chunking classification (`ChunkingType`), with the variants of
turbopack-core relevant here. -/
inductive ChunkingType where
  | Parallel : ChunkingType
  | Async : ChunkingType
  | Passthrough : ChunkingType
deriving DecidableEq, Repr

/-- `ChunkableModuleReference::chunking_type` for `WorkerAssetReference`:
`Vc::cell(Some(ChunkingType::Async))`. -/
def chunking_type (_ : WorkerAssetReference) : Option ChunkingType :=
  some ChunkingType.Async

/-- The chunk-loading capability of the target environment
(`ChunkLoading` in turbopack-core). -/
inductive ChunkLoading where
  | Edge : ChunkLoading
  | NodeJs : ChunkLoading
  | Dom : ChunkLoading
deriving DecidableEq, Repr

/-- The loader kind requested from the pattern-mapping service
(`ResolveType` in `pattern_mapping`). -/
inductive ResolveType where
  | AsyncChunkLoader : ResolveType
  | ChunkItem : ResolveType
deriving DecidableEq, Repr

/-- The record of arguments with which `code_generation` invokes
`PatternMapping::resolve_request`. -/
structure PatternMappingRequest where
  request : Nat
  origin : Nat
  resolveResult : UrlResolveCall
  resolveType : ResolveType
deriving DecidableEq, Repr

/-- The `PatternMapping::resolve_request` invocation made by
`code_generation`: forwards `self.request`, `self.origin`,
`worker_resolve_reference_inline(self)`, and the loader kind chosen by
matching the environment chunk-loading mode against `ChunkLoading::Edge`. -/
def code_generation_pattern_mapping (r : WorkerAssetReference)
    (chunkLoading : ChunkLoading) : PatternMappingRequest :=
  { request := r.request
    origin := r.origin
    resolveResult := worker_resolve_reference_inline r
    resolveType :=
      match chunkLoading with
      | ChunkLoading.Edge => ResolveType.ChunkItem
      | _ => ResolveType.AsyncChunkLoader }

/-- Whether an expression has the structural shape of the quoted fallback
template: a zero-argument call of a parenthesised zero-parameter arrow
whose single body statement throws `new Error(<string literal>)`. -/
def isThrowIife : Expr → Bool
  | Expr.callE
      (Expr.paren
        (Expr.arrow []
          [(true, Expr.newE (Expr.ident "Error")
            (some [(false, Expr.strLit _)]))]))
      [] => true
  | _ => false

/-- Whether the visitor takes the early-return success path on this
expression: a new-construction whose argument list is present and whose
first argument carries no spread. -/
def takesSuccessPath : Expr → Bool
  | Expr.newE _ (some ((false, _) :: _)) => true
  | _ => false

/-- Sample descriptor used to instantiate universally quantified results
at a concrete input. -/
def sampleRef : WorkerAssetReference :=
  { origin := 0
    request := 1
    path := 2
    issue_source := 3
    in_try := false
    import_externals := true }

/-- Sample import-expression builder standing for a concrete
`pm.create_import`. -/
def sampleBuilder : Expr → Bool → Expr :=
  fun key _ => Expr.callE (Expr.ident "__turbopack_require__") [(false, key)]

theorem isThrowIife_throwIife (msg : String) : isThrowIife (throwIife msg) = true := rfl

/-- Claim C1: for a new-construction expression with exactly one argument
that is not a spread, the rewrite produced by code generation replaces the
node with exactly the builder applied to that argument and the descriptor
import_externals flag. -/
theorem c1_success_path_exact_builder_output
    (createImport : Expr → Bool → Expr) (r : WorkerAssetReference)
    (callee keyExpr : Expr) :
    code_generation_rewrite createImport r
      (Expr.newE callee (some [(false, keyExpr)]))
      = createImport keyExpr r.import_externals := rfl

/-- Claim C2, counterexample: a new-construction with two non-spread
arguments is rewritten to the builder output on the first argument, not to
the fallback throw expression. -/
theorem c2_counterexample :
    code_generation_rewrite sampleBuilder sampleRef
      (Expr.newE (Expr.ident "Worker")
        (some [(false, Expr.strLit "./a.js"), (false, Expr.strLit "./b.js")]))
      = sampleBuilder (Expr.strLit "./a.js") true
    ∧ isThrowIife
        (code_generation_rewrite sampleBuilder sampleRef
          (Expr.newE (Expr.ident "Worker")
            (some [(false, Expr.strLit "./a.js"), (false, Expr.strLit "./b.js")])))
      = false := ⟨rfl, rfl⟩

/-- Claim C2 as amended: for a new-construction expression with more than
one argument, the rewrite takes the fallback path exactly when the first
argument is a spread; when the first argument is not a spread it takes the
success path on that first argument. -/
theorem c2_amended_first_argument_decides
    (createImport : Expr → Bool → Expr) (r : WorkerAssetReference)
    (callee e1 : Expr) (s : Bool) (rest : List (Bool × Expr))
    (hrest : rest ≠ []) :
    code_generation_rewrite createImport r
      (Expr.newE callee (some ((s, e1) :: rest)))
      = if s then
          throwIife "spread operator is illegal in new Worker() expressions."
        else createImport e1 r.import_externals := by
  cases s <;> rfl

theorem c2_amended_witness :
    ([(false, Expr.strLit "./b.js")] : List (Bool × Expr)) ≠ []
    ∧ code_generation_rewrite sampleBuilder sampleRef
        (Expr.newE (Expr.ident "Worker")
          (some ((true, Expr.strLit "./a.js") :: [(false, Expr.strLit "./b.js")])))
        = if true then
            throwIife "spread operator is illegal in new Worker() expressions."
          else sampleBuilder (Expr.strLit "./a.js") sampleRef.import_externals :=
  ⟨List.cons_ne_nil _ _,
    c2_amended_first_argument_decides sampleBuilder sampleRef
      (Expr.ident "Worker") (Expr.strLit "./a.js") true
      [(false, Expr.strLit "./b.js")] (List.cons_ne_nil _ _)⟩

/-- Claim C3: for a new-construction whose argument list is non-empty and
whose first argument is not a spread, the rewrite takes the success path
using only the first argument, whatever follows; the result does not
mention the remaining arguments. -/
theorem c3_only_first_argument_used
    (createImport : Expr → Bool → Expr) (r : WorkerAssetReference)
    (callee e1 : Expr) (rest : List (Bool × Expr)) :
    code_generation_rewrite createImport r
      (Expr.newE callee (some ((false, e1) :: rest)))
      = createImport e1 r.import_externals := rfl

/-- Claim C4: the fallback diagnostic message is, by case: a construction
whose first argument is a spread gives the spread message; zero arguments
(empty or missing argument list) give the at-least-1-argument message; a
non-construction node gives the CallExpr message. -/
theorem c4_fallback_messages
    (createImport : Expr → Bool → Expr) (r : WorkerAssetReference)
    (callee sp : Expr) (rest : List (Bool × Expr)) (e : Expr)
    (hnotNew : e.isNew = false) :
    (code_generation_rewrite createImport r
        (Expr.newE callee (some ((true, sp) :: rest)))
      = throwIife "spread operator is illegal in new Worker() expressions.")
    ∧ (code_generation_rewrite createImport r (Expr.newE callee (some []))
      = throwIife "new Worker() expressions require at least 1 argument")
    ∧ (code_generation_rewrite createImport r (Expr.newE callee none)
      = throwIife "new Worker() expressions require at least 1 argument")
    ∧ (code_generation_rewrite createImport r e
      = throwIife "visitor must be executed on a CallExpr") := by
  refine ⟨rfl, rfl, rfl, ?_⟩
  cases e <;> first
    | rfl
    | simp [Expr.isNew] at hnotNew

theorem c4_witness :
    (Expr.ident "useWorker").isNew = false
    ∧ ((code_generation_rewrite sampleBuilder sampleRef
          (Expr.newE (Expr.ident "Worker")
            (some ((true, Expr.strLit "./a.js") :: [])))
        = throwIife "spread operator is illegal in new Worker() expressions.")
      ∧ (code_generation_rewrite sampleBuilder sampleRef
          (Expr.newE (Expr.ident "Worker") (some []))
        = throwIife "new Worker() expressions require at least 1 argument")
      ∧ (code_generation_rewrite sampleBuilder sampleRef
          (Expr.newE (Expr.ident "Worker") none)
        = throwIife "new Worker() expressions require at least 1 argument")
      ∧ (code_generation_rewrite sampleBuilder sampleRef (Expr.ident "useWorker")
        = throwIife "visitor must be executed on a CallExpr")) :=
  ⟨rfl,
    c4_fallback_messages sampleBuilder sampleRef (Expr.ident "Worker")
      (Expr.strLit "./a.js") [] (Expr.ident "useWorker") rfl⟩

/-- Claim C5: whenever the rewrite does not take the success path, the
replacement is the standalone self-invoking function expression
`(() => \x7b throw new Error(<message>); \x7d)()` whose thrown value is a
string literal holding one of the three fixed diagnostic messages. -/
theorem c5_fallback_shape
    (createImport : Expr → Bool → Expr) (r : WorkerAssetReference)
    (e : Expr) (hfall : takesSuccessPath e = false) :
    ∃ msg,
      code_generation_rewrite createImport r e
        = Expr.callE
            (Expr.paren
              (Expr.arrow []
                [(true, Expr.newE (Expr.ident "Error")
                  (some [(false, Expr.strLit msg)]))]))
            []
      ∧ (msg = "spread operator is illegal in new Worker() expressions."
          ∨ msg = "new Worker() expressions require at least 1 argument"
          ∨ msg = "visitor must be executed on a CallExpr") := by
  cases e with
  | newE callee args =>
    match args with
    | none => exact ⟨_, rfl, Or.inr (Or.inl rfl)⟩
    | some [] => exact ⟨_, rfl, Or.inr (Or.inl rfl)⟩
    | some ((true, x) :: rest) => exact ⟨_, rfl, Or.inl rfl⟩
    | some ((false, x) :: rest) => simp [takesSuccessPath] at hfall
  | callE callee args => exact ⟨_, rfl, Or.inr (Or.inr rfl)⟩
  | paren x => exact ⟨_, rfl, Or.inr (Or.inr rfl)⟩
  | arrow params body => exact ⟨_, rfl, Or.inr (Or.inr rfl)⟩
  | ident sym => exact ⟨_, rfl, Or.inr (Or.inr rfl)⟩
  | strLit v => exact ⟨_, rfl, Or.inr (Or.inr rfl)⟩
  | numLit v => exact ⟨_, rfl, Or.inr (Or.inr rfl)⟩

theorem c5_witness :
    takesSuccessPath (Expr.ident "useWorker") = false
    ∧ ∃ msg,
        code_generation_rewrite sampleBuilder sampleRef (Expr.ident "useWorker")
          = Expr.callE
              (Expr.paren
                (Expr.arrow []
                  [(true, Expr.newE (Expr.ident "Error")
                    (some [(false, Expr.strLit msg)]))]))
              []
        ∧ (msg = "spread operator is illegal in new Worker() expressions."
            ∨ msg = "new Worker() expressions require at least 1 argument"
            ∨ msg = "visitor must be executed on a CallExpr") :=
  ⟨rfl, c5_fallback_shape sampleBuilder sampleRef (Expr.ident "useWorker") rfl⟩

/-- Claim C6: code generation requests the ChunkItem loader kind exactly
when the environment chunk-loading mode is Edge, and the AsyncChunkLoader
loader kind exactly when it is not. -/
theorem c6_loader_kind_edge_iff
    (r : WorkerAssetReference) (cl : ChunkLoading) :
    ((code_generation_pattern_mapping r cl).resolveType = ResolveType.ChunkItem
      ↔ cl = ChunkLoading.Edge)
    ∧ ((code_generation_pattern_mapping r cl).resolveType
        = ResolveType.AsyncChunkLoader
      ↔ cl ≠ ChunkLoading.Edge) := by
  cases cl <;> simp [code_generation_pattern_mapping]

/-- Claim C7: chunking_type is the constant `some ChunkingType.Async` for
every descriptor. -/
theorem c7_chunking_type_constant_async (r : WorkerAssetReference) :
    chunking_type r = some ChunkingType.Async := rfl

/-- Claim C8: stringification is exactly the literal prefix followed by
the textual rendering of the request field; it reads no other field. -/
theorem c8_to_string_shape (requestToString : Nat → String)
    (r : WorkerAssetReference) :
    worker_to_string requestToString r
      = "new Worker " ++ requestToString r.request := rfl

/-- Claim C9: the resolver is invoked with the descriptor origin and
request, the fixed URL/EcmaScriptNewUrl reference-kind tag — distinct from
every ordinary ECMAScript-modules import tag — the diagnostic context, and
warning severity when suppressed, error severity otherwise. -/
theorem c9_resolve_call_arguments (r : WorkerAssetReference) :
    worker_resolve_reference_inline r
      = { origin := r.origin
          request := r.request
          refType := ReferenceType.Url UrlReferenceSubType.EcmaScriptNewUrl
          issueSource := some r.issue_source
          severity :=
            if r.in_try then IssueSeverity.Warning else IssueSeverity.Error }
    ∧ ∀ sub, ReferenceType.Url UrlReferenceSubType.EcmaScriptNewUrl
        ≠ ReferenceType.EcmaScriptModules sub := by
  refine ⟨rfl, ?_⟩
  intro sub
  simp

/-- Claim C10: the resolve result forwarded to the pattern-mapping service
by code generation is identical to the result of resolve_reference on the
same descriptor: both are the one resolution function applied to the same
arguments. -/
theorem c10_same_resolve_result (r : WorkerAssetReference)
    (cl : ChunkLoading) :
    (code_generation_pattern_mapping r cl).resolveResult
      = resolve_reference r := rfl
